import Mathlib

/-!
Shallow embedding of `src/client/src/contexts/SiteSettingsContext.tsx`.

The file models the settings synchronizer: the typed settings record, the
default settings object, the remote `siteSettings` document held by the
external real-time store, the browser session/local storage flags, and the
operations exposed by the provider (`unlockSite`, `togglePasswordProtection`,
`changePassword`, `updateCountdownSettings`, `updateShippingSettings`,
`updateSocialMediaSettings`, `adminLogin`, `adminLogout`), together with
`initializeSettings` and the `watchData` subscription handler.

Remote interactions are promises that may reject; each operation is
parameterised by a boolean oracle saying whether the remote read/write
succeeds.  ISO-8601 date strings are represented by their millisecond epoch
value (the rendering is injective and never inspected by this code).
-/

/-- Mirrors interface `CountdownSettings` (lines 4-8).  `targetDate` is an
ISO-8601 instant, represented by its millisecond epoch value. -/
structure CountdownSettings where
  enabled : Bool
  targetDate : Nat
  title : String
deriving DecidableEq, Repr

/-- Mirrors interface `PasswordProtection` (lines 10-13). -/
structure PasswordProtection where
  enabled : Bool
  password : String
deriving DecidableEq, Repr

/-- Modelled from the spec: the shipping-province table
(`../data/shippingProvinces`, not under `src/`) is an opaque external
collaborator; a province record is treated as an opaque value. -/
def ShippingProvince : Type := String
deriving instance DecidableEq, Repr for ShippingProvince

/-- Modelled from the spec: the concrete province list is opaque data imported
from `../data/shippingProvinces`; no claim depends on its contents. -/
def shippingProvinces : List ShippingProvince := ["Algiers", "Oran"]

/-- Mirrors interface `ShippingSettings` (lines 17-22). -/
structure ShippingSettings where
  provinces : List ShippingProvince
  freeShippingThreshold : Int
  minPrice : Int
  maxPrice : Int
deriving DecidableEq, Repr

/-- Mirrors interface `SocialMediaSettings` (lines 24-31). -/
structure SocialMediaSettings where
  instagram : String
  twitter : String
  facebook : String
  youtube : String
  tiktok : String
  enabled : Bool
deriving DecidableEq, Repr

/-- Mirrors interface `SiteSettings` (lines 33-42): the provider's local
reactive state. -/
structure SiteSettings where
  countdownSettings : CountdownSettings
  passwordProtection : PasswordProtection
  shippingSettings : ShippingSettings
  socialMedia : SocialMediaSettings
  isUnlocked : Bool
  isAdmin : Bool
  isLoading : Bool
  currency : String
deriving DecidableEq, Repr

/-- Mirrors the module constant `defaultSettings` (lines 55-83).  `now` is the
value of `Date.now()` at module-load time; the countdown target is seven days
later (`7 * 24 * 60 * 60 * 1000` milliseconds). -/
def defaultSettings (now : Nat) : SiteSettings where
  countdownSettings :=
    { enabled := true
      targetDate := now + 7 * 24 * 60 * 60 * 1000
      title := "Next Drop Coming Soon" }
  passwordProtection :=
    { enabled := true
      password := "password123" }
  shippingSettings :=
    { provinces := shippingProvinces
      freeShippingThreshold := 5000
      minPrice := 300
      maxPrice := 800 }
  socialMedia :=
    { instagram := "https://instagram.com/drp"
      twitter := "https://twitter.com/drp"
      facebook := "https://facebook.com/drp"
      youtube := "https://youtube.com/drp"
      tiktok := "https://tiktok.com/@drp"
      enabled := true }
  isUnlocked := false
  isAdmin := false
  isLoading := true
  currency := "DZD"

/-- Remote image of the `passwordProtection` sub-object.  Both leaves are
optional because the code writes the leaf paths
`siteSettings/passwordProtection/enabled` and
`siteSettings/passwordProtection/password` individually, so either leaf can
exist without the other. -/
structure RemotePasswordProtection where
  enabled : Option Bool
  password : Option String
deriving DecidableEq, Repr

/-- Remote `siteSettings` document: each sub-object may be absent.  The three
sub-objects other than `passwordProtection` are only ever written wholesale, so
they are full records when present. -/
structure RemoteDoc where
  countdownSettings : Option CountdownSettings
  passwordProtection : Option RemotePasswordProtection
  shippingSettings : Option ShippingSettings
  socialMedia : Option SocialMediaSettings
deriving DecidableEq, Repr

/-- Modelled from the spec: the remote document store (`../lib/firebase`, not
under `src/`) exposes point reads (existence plus value), point writes and a
subscription on paths under `siteSettings`.  `none` means the document does
not exist. -/
def Remote : Type := Option RemoteDoc
deriving instance DecidableEq, Repr for Remote

/-- Document with no sub-object present; the shape a path-level write creates
parents into. -/
def emptyRemoteDoc : RemoteDoc := ⟨none, none, none, none⟩

/-- Modelled from the spec: point read of `siteSettings/passwordProtection/password`;
`snapshot.val()` is null (`none`) when the path is absent. -/
def remotePasswordValue (r : Remote) : Option String :=
  (r.bind fun d => d.passwordProtection).bind fun p => p.password

/-- Modelled from the spec: value at `siteSettings/passwordProtection/enabled`. -/
def remoteEnabledValue (r : Remote) : Option Bool :=
  (r.bind fun d => d.passwordProtection).bind fun p => p.enabled

/-- Modelled from the spec: value at `siteSettings/countdownSettings`. -/
def remoteCountdownValue (r : Remote) : Option CountdownSettings :=
  r.bind fun d => d.countdownSettings

/-- Modelled from the spec: value at `siteSettings/shippingSettings`. -/
def remoteShippingValue (r : Remote) : Option ShippingSettings :=
  r.bind fun d => d.shippingSettings

/-- Modelled from the spec: value at `siteSettings/socialMedia`. -/
def remoteSocialMediaValue (r : Remote) : Option SocialMediaSettings :=
  r.bind fun d => d.socialMedia

/-- Modelled from the spec: point write of `siteSettings/passwordProtection/enabled`,
creating absent parents. -/
def writeEnabledPath (r : Remote) (v : Bool) : Remote :=
  let d := r.getD emptyRemoteDoc
  let p := d.passwordProtection.getD ⟨none, none⟩
  some { d with passwordProtection := some { p with enabled := some v } }

/-- Modelled from the spec: point write of `siteSettings/passwordProtection/password`,
creating absent parents. -/
def writePasswordPath (r : Remote) (v : String) : Remote :=
  let d := r.getD emptyRemoteDoc
  let p := d.passwordProtection.getD ⟨none, none⟩
  some { d with passwordProtection := some { p with password := some v } }

/-- Modelled from the spec: point write of `siteSettings/countdownSettings`. -/
def writeCountdownPath (r : Remote) (v : CountdownSettings) : Remote :=
  some { r.getD emptyRemoteDoc with countdownSettings := some v }

/-- Modelled from the spec: point write of `siteSettings/shippingSettings`. -/
def writeShippingPath (r : Remote) (v : ShippingSettings) : Remote :=
  some { r.getD emptyRemoteDoc with shippingSettings := some v }

/-- Modelled from the spec: point write of `siteSettings/socialMedia`. -/
def writeSocialMediaPath (r : Remote) (v : SocialMediaSettings) : Remote :=
  some { r.getD emptyRemoteDoc with socialMedia := some v }

/-- Combined state the provider interacts with: the remote document, the local
reactive `settings` state, the session-scoped storage entries `siteUnlocked`
and `authToken`, and the durable storage entry `adminLoggedIn`. -/
structure World where
  remote : Remote
  settings : SiteSettings
  sessionSiteUnlocked : Option String
  sessionAuthToken : Option String
  localAdminLoggedIn : Option String
deriving DecidableEq, Repr

/-- Observable side effects of one operation: `console.log` lines,
`console.error` lines, and blocking `alert` dialogs (each recorded by its
leading message text). -/
structure Effects where
  logs : List String
  errors : List String
  alerts : List String
deriving DecidableEq, Repr

/-- No side effects. -/
def noEff : Effects := ⟨[], [], []⟩

/-- Whether the async operation's promise resolved (`completed`) or rejected
out of the operation into the caller (`threw`). -/
inductive OpOutcome where
  | completed
  | threw
deriving DecidableEq, Repr

/-- Result of running one provider operation: the new combined state, the
value the promise resolves with, whether the promise rejected, and the
observable side effects. -/
structure OpResult (ρ : Type) where
  world : World
  result : ρ
  outcome : OpOutcome
  effects : Effects
deriving DecidableEq, Repr

/-- Mirrors `initializeSettings` (lines 93-105) together with the `.catch`
attached at lines 107-109: read `siteSettings`; if it does not exist, write
the four default sub-objects; any rejection is caught and logged.  `readOk`
and `writeOk` say whether the corresponding remote call succeeds; `now` is
module-load time. -/
def initializeSettings (readOk writeOk : Bool) (now : Nat) (w : World) :
    World × Effects :=
  if !readOk then
    (w, { noEff with errors := ["Error initializing settings:"] })
  else
    match w.remote with
    | some _ => (w, noEff)
    | none =>
        if writeOk then
          let d := defaultSettings now
          ({ w with
              remote := some
                { countdownSettings := some d.countdownSettings
                  passwordProtection := some
                    ⟨some d.passwordProtection.enabled,
                     some d.passwordProtection.password⟩
                  shippingSettings := some d.shippingSettings
                  socialMedia := some d.socialMedia } },
           { noEff with logs := ["Initialized default settings in Firebase"] })
        else
          (w, { noEff with errors := ["Error initializing settings:"] })

/-- Payload delivered to the `watchData('siteSettings', ...)` callback, typed
as the handler consumes it: each top-level sub-object may be absent. -/
structure WatchPayload where
  countdownSettings : Option CountdownSettings
  passwordProtection : Option PasswordProtection
  shippingSettings : Option ShippingSettings
  socialMedia : Option SocialMediaSettings
deriving DecidableEq, Repr

/-- Mirrors the `watchData` callback (lines 111-124).  A present payload
merges each sub-object into the previous state, substituting the module
default (JS `||`) for an absent sub-object, and clears `isLoading`; a null
payload only clears `isLoading`. -/
def handleWatchUpdate (now : Nat) (data : Option WatchPayload)
    (prev : SiteSettings) : SiteSettings :=
  match data with
  | some d =>
      { prev with
        countdownSettings :=
          d.countdownSettings.getD (defaultSettings now).countdownSettings
        passwordProtection :=
          d.passwordProtection.getD (defaultSettings now).passwordProtection
        shippingSettings :=
          d.shippingSettings.getD (defaultSettings now).shippingSettings
        socialMedia :=
          d.socialMedia.getD (defaultSettings now).socialMedia
        isLoading := false }
  | none => { prev with isLoading := false }

/-- Mirrors the startup reads of lines 126-136: seed `isUnlocked` from the
session-scoped `siteUnlocked` flag and `isAdmin` from the durable
`adminLoggedIn` flag, each only when the stored string is exactly `"true"`. -/
def startupFlags (sessionUnlocked adminFlag : Option String)
    (s : SiteSettings) : SiteSettings :=
  let s1 := if sessionUnlocked = some "true" then { s with isUnlocked := true } else s
  if adminFlag = some "true" then { s1 with isAdmin := true } else s1

/-- Mirrors `unlockSite` (lines 145-164): read the current remote password,
compare strictly, and on a match store the session flags, set `isUnlocked`
and resolve true; on mismatch resolve false; a read rejection is caught,
logged and resolved as false.  `tok` is the generated opaque session token. -/
def unlockSite (readOk : Bool) (tok : String) (password : String)
    (w : World) : OpResult Bool :=
  if readOk then
    let correctPassword := remotePasswordValue w.remote
    if some password = correctPassword then
      { world :=
          { w with
            sessionSiteUnlocked := some "true"
            sessionAuthToken := some tok
            settings := { w.settings with isUnlocked := true } }
        result := true
        outcome := .completed
        effects := noEff }
    else
      { world := w, result := false, outcome := .completed, effects := noEff }
  else
    { world := w
      result := false
      outcome := .completed
      effects := { noEff with errors := ["Error unlocking site with Firebase:"] } }

/-- Mirrors `togglePasswordProtection` (lines 166-184): write the flag to the
remote `passwordProtection/enabled` path, log, then update local state; a
rejection is caught, logged, and surfaced through a blocking alert, leaving
all state unchanged. -/
def togglePasswordProtection (writeOk : Bool) (enabled : Bool)
    (w : World) : OpResult Unit :=
  if writeOk then
    { world :=
        { w with
          remote := writeEnabledPath w.remote enabled
          settings :=
            { w.settings with
              passwordProtection :=
                { w.settings.passwordProtection with enabled := enabled } } }
      result := ()
      outcome := .completed
      effects :=
        { noEff with
          logs :=
            [if enabled then "Password protection enabled in Firebase"
             else "Password protection disabled in Firebase"] } }
  else
    { world := w
      result := ()
      outcome := .completed
      effects :=
        { logs := []
          errors := ["Error toggling password protection:"]
          alerts := ["Error updating password protection setting. Please try again."] } }

/-- Mirrors `changePassword` (lines 186-208): log, write the new plaintext
value to the remote `passwordProtection/password` path, update local state and
alert success; a rejection is caught, logged, and surfaced through a blocking
alert, leaving all state unchanged (the first log precedes the write, so it
appears in both branches). -/
def changePassword (writeOk : Bool) (newPassword : String)
    (w : World) : OpResult Unit :=
  if writeOk then
    { world :=
        { w with
          remote := writePasswordPath w.remote newPassword
          settings :=
            { w.settings with
              passwordProtection :=
                { w.settings.passwordProtection with password := newPassword } } }
      result := ()
      outcome := .completed
      effects :=
        { logs := ["Updating password in Firebase to:", "Password updated in Firebase"]
          errors := []
          alerts := ["Password updated successfully!"] } }
  else
    { world := w
      result := ()
      outcome := .completed
      effects :=
        { logs := ["Updating password in Firebase to:"]
          errors := ["Error changing password:"]
          alerts := ["Error changing password. Please try again."] } }

/-- Mirrors `Partial<CountdownSettings>`: each field may be present or absent. -/
structure CountdownPatch where
  enabled : Option Bool
  targetDate : Option Nat
  title : Option String
deriving DecidableEq, Repr

/-- Mirrors `Partial<ShippingSettings>`. -/
structure ShippingPatch where
  provinces : Option (List ShippingProvince)
  freeShippingThreshold : Option Int
  minPrice : Option Int
  maxPrice : Option Int
deriving DecidableEq, Repr

/-- Mirrors `Partial<SocialMediaSettings>`. -/
structure SocialMediaPatch where
  instagram : Option String
  twitter : Option String
  facebook : Option String
  youtube : Option String
  tiktok : Option String
  enabled : Option Bool
deriving DecidableEq, Repr

/-- Spread merge `{...cur, ...p}` for countdown settings: a field present in
the patch wins, an absent field keeps its current value. -/
def mergeCountdown (cur : CountdownSettings) (p : CountdownPatch) :
    CountdownSettings where
  enabled := p.enabled.getD cur.enabled
  targetDate := p.targetDate.getD cur.targetDate
  title := p.title.getD cur.title

/-- Spread merge `{...cur, ...p}` for shipping settings. -/
def mergeShipping (cur : ShippingSettings) (p : ShippingPatch) :
    ShippingSettings where
  provinces := p.provinces.getD cur.provinces
  freeShippingThreshold := p.freeShippingThreshold.getD cur.freeShippingThreshold
  minPrice := p.minPrice.getD cur.minPrice
  maxPrice := p.maxPrice.getD cur.maxPrice

/-- Spread merge `{...cur, ...p}` for social-media settings. -/
def mergeSocialMedia (cur : SocialMediaSettings) (p : SocialMediaPatch) :
    SocialMediaSettings where
  instagram := p.instagram.getD cur.instagram
  twitter := p.twitter.getD cur.twitter
  facebook := p.facebook.getD cur.facebook
  youtube := p.youtube.getD cur.youtube
  tiktok := p.tiktok.getD cur.tiktok
  enabled := p.enabled.getD cur.enabled

/-- Mirrors `updateCountdownSettings` (lines 210-221): merge the patch over
the current local sub-object, write the whole merged value to the remote path,
then set local state to the same value.  There is no try/catch: a write
rejection propagates to the caller before any state change. -/
def updateCountdownSettings (writeOk : Bool) (p : CountdownPatch)
    (w : World) : OpResult Unit :=
  let updated := mergeCountdown w.settings.countdownSettings p
  if writeOk then
    { world :=
        { w with
          remote := writeCountdownPath w.remote updated
          settings := { w.settings with countdownSettings := updated } }
      result := ()
      outcome := .completed
      effects := noEff }
  else
    { world := w, result := (), outcome := .threw, effects := noEff }

/-- Mirrors `updateShippingSettings` (lines 223-234); same unwrapped shape as
`updateCountdownSettings`. -/
def updateShippingSettings (writeOk : Bool) (p : ShippingPatch)
    (w : World) : OpResult Unit :=
  let updated := mergeShipping w.settings.shippingSettings p
  if writeOk then
    { world :=
        { w with
          remote := writeShippingPath w.remote updated
          settings := { w.settings with shippingSettings := updated } }
      result := ()
      outcome := .completed
      effects := noEff }
  else
    { world := w, result := (), outcome := .threw, effects := noEff }

/-- Mirrors `updateSocialMediaSettings` (lines 236-247); same unwrapped shape
as `updateCountdownSettings`. -/
def updateSocialMediaSettings (writeOk : Bool) (p : SocialMediaPatch)
    (w : World) : OpResult Unit :=
  let updated := mergeSocialMedia w.settings.socialMedia p
  if writeOk then
    { world :=
        { w with
          remote := writeSocialMediaPath w.remote updated
          settings := { w.settings with socialMedia := updated } }
      result := ()
      outcome := .completed
      effects := noEff }
  else
    { world := w, result := (), outcome := .threw, effects := noEff }

/-- Mirrors `adminLogin` (lines 249-263): compare against the fixed credential
pair; on success persist the durable flag and set `isAdmin`; otherwise resolve
false with no change.  No remote call occurs, so no oracle is needed. -/
def adminLogin (email password : String) (w : World) : OpResult Bool :=
  if email = "admin@example.com" ∧ password = "admin123" then
    { world :=
        { w with
          localAdminLoggedIn := some "true"
          settings := { w.settings with isAdmin := true } }
      result := true
      outcome := .completed
      effects := noEff }
  else
    { world := w, result := false, outcome := .completed, effects := noEff }

/-- Mirrors `adminLogout` (lines 265-268): remove the durable flag and clear
`isAdmin`; purely local. -/
def adminLogout (w : World) : World :=
  { w with
    localAdminLoggedIn := none
    settings := { w.settings with isAdmin := false } }

/-- Value held by the context when a provider is active (the settings snapshot;
the bundled operations are the top-level functions of this file). -/
structure SiteSettingsContextType where
  settings : SiteSettings
deriving DecidableEq, Repr

/-- Mirrors `useSiteSettings` (lines 289-295): an undefined context value
throws immediately; otherwise the context value is returned. -/
def useSiteSettings (ctx : Option SiteSettingsContextType) :
    Except String SiteSettingsContextType :=
  match ctx with
  | none => .error "useSiteSettings must be used within a SiteSettingsProvider"
  | some c => .ok c

/-- Concrete seeded remote document used by witnesses. -/
def sampleDoc : RemoteDoc where
  countdownSettings := some (defaultSettings 0).countdownSettings
  passwordProtection := some ⟨some true, some "password123"⟩
  shippingSettings := some (defaultSettings 0).shippingSettings
  socialMedia := some (defaultSettings 0).socialMedia

/-- Concrete combined state used by witnesses: seeded remote document, default
local settings, no stored flags. -/
def sampleWorld : World where
  remote := some sampleDoc
  settings := defaultSettings 0
  sessionSiteUnlocked := none
  sessionAuthToken := none
  localAdminLoggedIn := none

/-- Payload with every sub-object absent, used by witnesses. -/
def emptyPayload : WatchPayload := ⟨none, none, none, none⟩

/-- Patch with every field absent, used in counterexamples. -/
def emptyCountdownPatch : CountdownPatch := ⟨none, none, none⟩

/-- Claim C1: `unlockSite p` resolves true iff `p` is exactly the password
value read from `siteSettings/passwordProtection/password` at the time of the
call; every other input — the empty string, a stale cached password, or any
string when the remote value is absent — resolves false.  The right-hand side
depends only on the remote store, never on the cached local copy. -/
theorem unlockSite_true_iff_current_remote_password (w : World) (tok p : String) :
    (unlockSite true tok p w).result = true ↔
      remotePasswordValue w.remote = some p := by
  by_cases h : some p = remotePasswordValue w.remote
  · simp only [unlockSite, if_pos h, if_pos rfl]
    exact iff_of_true rfl h.symm
  · simp only [unlockSite, if_neg h, if_pos rfl]
    exact iff_of_false (by simp) fun hh => h hh.symm

/-- Claim C2: initialization never overwrites an existing settings document:
when the remote document exists, running the initializer (with any read/write
outcome) changes nothing, and running it any number of further times still
changes nothing. -/
theorem initializeSettings_idempotent (ro wo : Bool) (n : Nat) (w : World)
    (d : RemoteDoc) (h : w.remote = some d) :
    (initializeSettings ro wo n w).1 = w ∧
      ∀ ro2 wo2 n2,
        (initializeSettings ro2 wo2 n2 (initializeSettings ro wo n w).1).1 =
          (initializeSettings ro wo n w).1 := by
  have h1 : (initializeSettings ro wo n w).1 = w := by
    unfold initializeSettings
    cases ro <;> simp [h]
  refine ⟨h1, fun ro2 wo2 n2 => ?_⟩
  rw [h1]
  unfold initializeSettings
  cases ro2 <;> simp [h]

/-- Witness for C2 at a concrete, already-seeded state. -/
theorem initializeSettings_idempotent_witness :
    (initializeSettings true true 0 sampleWorld).1 = sampleWorld :=
  (initializeSettings_idempotent true true 0 sampleWorld sampleDoc rfl).1

/-- Claim C3: for every non-null live-update payload, each of the four
top-level sub-objects that the payload omits comes out of the merge equal to
the fixed module default, so the merged view is always a fully populated
`SiteSettings` record; the handler also clears `isLoading`. -/
theorem handleWatchUpdate_omitted_defaults (now : Nat) (d : WatchPayload)
    (prev : SiteSettings) :
    (d.countdownSettings = none →
      (handleWatchUpdate now (some d) prev).countdownSettings =
        (defaultSettings now).countdownSettings) ∧
    (d.passwordProtection = none →
      (handleWatchUpdate now (some d) prev).passwordProtection =
        (defaultSettings now).passwordProtection) ∧
    (d.shippingSettings = none →
      (handleWatchUpdate now (some d) prev).shippingSettings =
        (defaultSettings now).shippingSettings) ∧
    (d.socialMedia = none →
      (handleWatchUpdate now (some d) prev).socialMedia =
        (defaultSettings now).socialMedia) ∧
    (handleWatchUpdate now (some d) prev).isLoading = false := by
  refine ⟨fun h => ?_, fun h => ?_, fun h => ?_, fun h => ?_, rfl⟩ <;>
    simp [handleWatchUpdate, h]

/-- Witness for C3 at the all-absent payload. -/
theorem handleWatchUpdate_omitted_defaults_witness :
    (handleWatchUpdate 0 (some emptyPayload) (defaultSettings 0)).countdownSettings =
        (defaultSettings 0).countdownSettings ∧
    (handleWatchUpdate 0 (some emptyPayload) (defaultSettings 0)).passwordProtection =
        (defaultSettings 0).passwordProtection ∧
    (handleWatchUpdate 0 (some emptyPayload) (defaultSettings 0)).shippingSettings =
        (defaultSettings 0).shippingSettings ∧
    (handleWatchUpdate 0 (some emptyPayload) (defaultSettings 0)).socialMedia =
        (defaultSettings 0).socialMedia ∧
    (handleWatchUpdate 0 (some emptyPayload) (defaultSettings 0)).isLoading = false := by
  have H := handleWatchUpdate_omitted_defaults 0 emptyPayload (defaultSettings 0)
  exact ⟨H.1 rfl, H.2.1 rfl, H.2.2.1 rfl, H.2.2.2.1 rfl, H.2.2.2.2⟩

/-- Claim C4 counterexample: a remote write failure inside
`updateCountdownSettings` rejects out to the caller (`threw`), is not logged,
and shows no blocking alert — so not every remote write of the eight exposed
operations is wrapped, and this direct mutation call does not surface failures
as a user notification. -/
theorem updateCountdownSettings_failure_propagates_cex :
    (updateCountdownSettings false emptyCountdownPatch sampleWorld).outcome =
        OpOutcome.threw ∧
    (updateCountdownSettings false emptyCountdownPatch sampleWorld).effects.alerts = [] ∧
    (updateCountdownSettings false emptyCountdownPatch sampleWorld).effects.errors = [] :=
  ⟨rfl, rfl, rfl⟩

/-- Claim C4 (amended): `unlockSite` converts a remote read failure to a
`false` result with a logged error and never rejects; `adminLogin` performs no
remote call and never rejects; `togglePasswordProtection` and `changePassword`
catch a write failure, log it, surface a blocking alert and leave all state
unchanged; but `updateCountdownSettings`, `updateShippingSettings` and
`updateSocialMediaSettings` are not wrapped: a remote write failure rejects
out to the caller with no log and no alert (state unchanged), while on
success every operation completes normally. -/
theorem failure_semantics_amended (w : World) (tok p e pw npw : String) (b : Bool)
    (pc : CountdownPatch) (ps : ShippingPatch) (pm : SocialMediaPatch) :
    ((unlockSite false tok p w).outcome = OpOutcome.completed ∧
     (unlockSite false tok p w).result = false ∧
     (unlockSite false tok p w).effects.errors =
       ["Error unlocking site with Firebase:"]) ∧
    ((adminLogin e pw w).outcome = OpOutcome.completed) ∧
    ((togglePasswordProtection false b w).outcome = OpOutcome.completed ∧
     (togglePasswordProtection false b w).world = w ∧
     (togglePasswordProtection false b w).effects.errors =
       ["Error toggling password protection:"] ∧
     (togglePasswordProtection false b w).effects.alerts =
       ["Error updating password protection setting. Please try again."]) ∧
    ((changePassword false npw w).outcome = OpOutcome.completed ∧
     (changePassword false npw w).world = w ∧
     (changePassword false npw w).effects.errors = ["Error changing password:"] ∧
     (changePassword false npw w).effects.alerts =
       ["Error changing password. Please try again."]) ∧
    ((updateCountdownSettings false pc w).outcome = OpOutcome.threw ∧
     (updateCountdownSettings false pc w).world = w ∧
     (updateCountdownSettings false pc w).effects = noEff) ∧
    ((updateShippingSettings false ps w).outcome = OpOutcome.threw ∧
     (updateShippingSettings false ps w).world = w ∧
     (updateShippingSettings false ps w).effects = noEff) ∧
    ((updateSocialMediaSettings false pm w).outcome = OpOutcome.threw ∧
     (updateSocialMediaSettings false pm w).world = w ∧
     (updateSocialMediaSettings false pm w).effects = noEff) ∧
    ((unlockSite true tok p w).outcome = OpOutcome.completed ∧
     (togglePasswordProtection true b w).outcome = OpOutcome.completed ∧
     (changePassword true npw w).outcome = OpOutcome.completed ∧
     (updateCountdownSettings true pc w).outcome = OpOutcome.completed ∧
     (updateShippingSettings true ps w).outcome = OpOutcome.completed ∧
     (updateSocialMediaSettings true pm w).outcome = OpOutcome.completed) := by
  refine ⟨⟨rfl, rfl, rfl⟩, ?_, ⟨rfl, rfl, rfl, rfl⟩, ⟨rfl, rfl, rfl, rfl⟩,
    ⟨rfl, rfl, rfl⟩, ⟨rfl, rfl, rfl⟩, ⟨rfl, rfl, rfl⟩,
    ⟨?_, rfl, rfl, rfl, rfl, rfl⟩⟩
  · unfold adminLogin
    split <;> rfl
  · by_cases h : some p = remotePasswordValue w.remote <;> simp [unlockSite, h]

/-- Claim C5: each partial-update operation writes to its remote sub-object
path the merge of the current local sub-object with the patch (the entire
merged record, a full replace) and sets the local sub-object to the same
merged value, so fields absent from the patch keep their current values; in
particular `updateShippingSettings {minPrice := 400}` over
`{minPrice := 300, maxPrice := 800, freeShippingThreshold := 5000, provinces := P}`
yields `{minPrice := 400, maxPrice := 800, freeShippingThreshold := 5000, provinces := P}`. -/
theorem update_writes_merged_subobject (w : World) (pc : CountdownPatch)
    (ps : ShippingPatch) (pm : SocialMediaPatch) :
    ((updateCountdownSettings true pc w).world.settings.countdownSettings =
        mergeCountdown w.settings.countdownSettings pc ∧
     remoteCountdownValue (updateCountdownSettings true pc w).world.remote =
        some (mergeCountdown w.settings.countdownSettings pc)) ∧
    ((updateShippingSettings true ps w).world.settings.shippingSettings =
        mergeShipping w.settings.shippingSettings ps ∧
     remoteShippingValue (updateShippingSettings true ps w).world.remote =
        some (mergeShipping w.settings.shippingSettings ps)) ∧
    ((updateSocialMediaSettings true pm w).world.settings.socialMedia =
        mergeSocialMedia w.settings.socialMedia pm ∧
     remoteSocialMediaValue (updateSocialMediaSettings true pm w).world.remote =
        some (mergeSocialMedia w.settings.socialMedia pm)) ∧
    (∀ P : List ShippingProvince,
      mergeShipping ⟨P, 5000, 300, 800⟩ ⟨none, none, some 400, none⟩ =
        ⟨P, 5000, 400, 800⟩) :=
  ⟨⟨rfl, rfl⟩, ⟨rfl, rfl⟩, ⟨rfl, rfl⟩, fun _ => rfl⟩

/-- Claim C6: on a successful remote write `togglePasswordProtection v` sets
`siteSettings/passwordProtection/enabled` to `v` and sets the local
`passwordProtection.enabled` to the same value, leaving the local password as
it was; on a failed write the whole state is left unchanged and a blocking
alert (plus a logged error) is shown. -/
theorem togglePasswordProtection_writes_then_updates (w : World) (v : Bool) :
    (remoteEnabledValue (togglePasswordProtection true v w).world.remote = some v ∧
     (togglePasswordProtection true v w).world.settings.passwordProtection.enabled = v ∧
     (togglePasswordProtection true v w).world.settings.passwordProtection.password =
       w.settings.passwordProtection.password) ∧
    ((togglePasswordProtection false v w).world = w ∧
     (togglePasswordProtection false v w).effects.alerts =
       ["Error updating password protection setting. Please try again."] ∧
     (togglePasswordProtection false v w).effects.errors =
       ["Error toggling password protection:"]) :=
  ⟨⟨rfl, rfl, rfl⟩, ⟨rfl, rfl, rfl⟩⟩

/-- Claim C7: `adminLogin` succeeds exactly on the fixed credential pair,
persisting the durable flag and setting `isAdmin`; any other pair resolves
false and changes nothing at all; `adminLogout` removes the durable flag and
clears `isAdmin`, touching neither the remote store nor session storage; and
a fresh start with no stored flags has `isAdmin = false`. -/
theorem adminLogin_logout_spec (w : World) (now : Nat) :
    ((adminLogin "admin@example.com" "admin123" w).result = true ∧
     (adminLogin "admin@example.com" "admin123" w).world.localAdminLoggedIn =
       some "true" ∧
     (adminLogin "admin@example.com" "admin123" w).world.settings.isAdmin = true) ∧
    (∀ e p : String, ¬(e = "admin@example.com" ∧ p = "admin123") →
       adminLogin e p w =
         { world := w, result := false, outcome := .completed, effects := noEff }) ∧
    ((adminLogout w).localAdminLoggedIn = none ∧
     (adminLogout w).settings.isAdmin = false ∧
     (adminLogout w).remote = w.remote ∧
     (adminLogout w).sessionSiteUnlocked = w.sessionSiteUnlocked ∧
     (adminLogout w).sessionAuthToken = w.sessionAuthToken) ∧
    (startupFlags none none (defaultSettings now)).isAdmin = false := by
  refine ⟨⟨?_, ?_, ?_⟩, fun e p h => ?_, ⟨rfl, rfl, rfl, rfl, rfl⟩, rfl⟩
  · simp [adminLogin]
  · simp [adminLogin]
  · simp [adminLogin]
  · simp [adminLogin, h]

/-- Witness for C7 at concrete credential pairs. -/
theorem adminLogin_logout_spec_witness :
    (adminLogin "admin@example.com" "admin123" sampleWorld).result = true ∧
    (adminLogin "x" "y" sampleWorld).result = false ∧
    (adminLogout sampleWorld).settings.isAdmin = false := by
  have H := adminLogin_logout_spec sampleWorld 0
  refine ⟨H.1.1, ?_, H.2.2.1.2.1⟩
  rw [H.2.1 "x" "y" (by decide)]

/-- Claim C8: `unlockSite` fails closed and atomically — on a password
mismatch it resolves false and changes nothing (neither `isUnlocked` nor
session storage nor anything else), and on a remote-read failure it logs the
error, resolves false without rejecting, and changes nothing. -/
theorem unlockSite_fails_closed (w : World) (tok p : String) :
    (remotePasswordValue w.remote ≠ some p →
       (unlockSite true tok p w).world = w ∧
       (unlockSite true tok p w).result = false) ∧
    ((unlockSite false tok p w).world = w ∧
     (unlockSite false tok p w).result = false ∧
     (unlockSite false tok p w).outcome = OpOutcome.completed ∧
     (unlockSite false tok p w).effects.errors =
       ["Error unlocking site with Firebase:"]) := by
  refine ⟨fun h => ?_, ⟨rfl, rfl, rfl, rfl⟩⟩
  have hc : ¬(some p = remotePasswordValue w.remote) := fun hh => h hh.symm
  simp [unlockSite, hc]

/-- Witness for C8 at a concrete mismatching password. -/
theorem unlockSite_fails_closed_witness :
    (unlockSite true "tok" "wrong" sampleWorld).world = sampleWorld ∧
    (unlockSite true "tok" "wrong" sampleWorld).result = false ∧
    (unlockSite false "tok" "wrong" sampleWorld).result = false := by
  have H := unlockSite_fails_closed sampleWorld "tok" "wrong"
  have h1 := H.1 (by decide)
  exact ⟨h1.1, h1.2, H.2.2.1⟩

/-- Claim C9: consuming the settings contract without an active provider
(context value undefined) throws immediately, while under a provider the
context value is returned as is. -/
theorem useSiteSettings_fails_loudly :
    useSiteSettings none =
      Except.error "useSiteSettings must be used within a SiteSettingsProvider" ∧
    ∀ c, useSiteSettings (some c) = Except.ok c :=
  ⟨rfl, fun _ => rfl⟩

/-- Claim C10: a null live-update payload substitutes no defaults and clears
nothing: the handler keeps every sub-object and both gate flags exactly as
they were and only sets `isLoading` to false. -/
theorem handleWatchUpdate_null_only_clears_isLoading (now : Nat)
    (prev : SiteSettings) :
    handleWatchUpdate now none prev = { prev with isLoading := false } :=
  rfl
